import Mathlib

/-!
# Verification of the Rocket WebSocket subsystem (DenWav/Rocket)

Shallow embedding, in Lean 4, of the parts of the repository that the
specification's claims are about:

* `Data` with its `peek`/`take` pair (`core/lib/src/data/data.rs`);
* the rocket-multiplex classifier `multiplex_get_request`, the control-message
  parser `handle_control`, and the SUBSCRIBE/UNSUBSCRIBE handling in
  `websocket_task_multiplexed` (`core/lib/src/channels/router.rs`);
* the close-status normalization `close_status` (`router.rs`);
* the event router `handle_message` with its Join fallback (`router.rs`);
* the incoming-payload drain state (`RunningMessage`,
  `core/lib/src/channels/websockets.rs`).

Bytes are modelled as `Nat` (values < 256 in practice), byte streams as lists
of chunks (`List (List Nat)`), since the transport delivers bytes in chunks
whose sizes the code does not control.  External collaborators that are not
part of the repository sources (URI parsing, user handlers, the broker) are
oracles passed in as function parameters; their calls are recorded in the
state so that claims about "which events fire" can be stated.
-/

namespace RocketWs

/-! ## Data (core/lib/src/data/data.rs) -/

/-- The number of bytes to read into the "peek" buffer (`data.rs` line 6). -/
def PEEK_BYTES : Nat := 512

/-- `Data`: buffered body bytes plus the not-yet-read remainder of the
underlying stream, modelled as the list of chunks future reads will return.
(`data.rs` lines 40-45; the `StreamReader` is an external byte source.) -/
structure Data where
  buffer : List Nat
  is_complete : Bool
  stream : List (List Nat)
  ws_binary : Option Bool
deriving Repr, DecidableEq

/-- The read loop inside `Data::peek` (`data.rs` lines 172-181): repeatedly
`read_buf` into the buffer until it holds `num` bytes; a read that returns
zero bytes (exhausted stream) sets `is_complete` and stops.  Returns the new
buffer, the remaining stream, and whether `is_complete` was set. -/
def fillBuffer : List Nat → List (List Nat) → Nat → List Nat × List (List Nat) × Bool
  | buffer, stream, num =>
    if num ≤ buffer.length then (buffer, stream, false)
    else
      match stream with
      | [] => (buffer, [], true)
      | c :: rest =>
        if c.isEmpty then (buffer, rest, true)
        else fillBuffer (buffer ++ c) rest num

/-- `Data::peek` (`data.rs` lines 165-184): return at most
`min PEEK_BYTES num` buffered bytes, reading from the stream first if the
buffer is short.  Returns the peeked bytes and the updated `Data`. -/
def Data.peek (d : Data) (num : Nat) : List Nat × Data :=
  if min PEEK_BYTES num ≤ d.buffer.length then (d.buffer.take (min PEEK_BYTES num), d)
  else
    ((fillBuffer d.buffer d.stream (min PEEK_BYTES num)).1.take
        (min (fillBuffer d.buffer d.stream (min PEEK_BYTES num)).1.length (min PEEK_BYTES num)),
     { buffer := (fillBuffer d.buffer d.stream (min PEEK_BYTES num)).1,
       stream := (fillBuffer d.buffer d.stream (min PEEK_BYTES num)).2.1,
       is_complete := d.is_complete || (fillBuffer d.buffer d.stream (min PEEK_BYTES num)).2.2,
       ws_binary := d.ws_binary })

/-- `Data::take` (`data.rs` lines 221-226): peek `num` bytes, then split the
buffer at the length of the peeked slice; the head is returned and the tail
stays in the buffer. -/
def Data.take (d : Data) (num : Nat) : List Nat × Data :=
  let p := d.peek num
  (p.2.buffer.take p.1.length, { p.2 with buffer := p.2.buffer.drop p.1.length })

/-- All bytes reachable through a `Data`: the buffered ones followed by the
rest of the stream. -/
def Data.contents (d : Data) : List Nat := d.buffer ++ d.stream.flatten

/-- `Data` as created by `Data::from_ws` (`data.rs` lines 60-68): empty
buffer, whole payload still in the stream. -/
def Data.fromWs (chunks : List (List Nat)) (binary : Option Bool) : Data :=
  { buffer := [], is_complete := false, stream := chunks, ws_binary := binary }

/-! ## rocket-multiplex constants

Modelled from the spec: the module `channels/rocket_multiplex.rs` that defines
`MAX_TOPIC_LENGTH`, `MULTIPLEX_CONTROL_CHAR` and `MULTIPLEX_CONTROL_STR` is
not among the provided sources.  The spec fixes the separator as U+00B7
(MIDDLE DOT, UTF-8 bytes `0xC2 0xB7`) and caps the topic portion at 100
bytes. -/

/-- Modelled from the spec: the topic portion of a multiplexed data message is
capped at 100 bytes (`rocket_multiplex::MAX_TOPIC_LENGTH`, not under the
provided sources). -/
def MAX_TOPIC_LENGTH : Nat := 100

/-- Modelled from the spec: the UTF-8 byte sequence of the separator U+00B7
(`rocket_multiplex::MULTIPLEX_CONTROL_CHAR`, not under the provided
sources). -/
def MULTIPLEX_CONTROL_CHAR : List Nat := [0xC2, 0xB7]

/-- Modelled from the spec: the separator U+00B7 as a character
(`rocket_multiplex::MULTIPLEX_CONTROL_STR` is the corresponding one-character
string). -/
def SEP_CHAR : Char := Char.ofNat 0xB7

/-! ## WebSocket close status codes

Modelled from the spec: `WebSocketStatus` and its constants live in
`websocket/status.rs`, which is not among the provided sources.  The spec's
normalization table names the statuses, and gives 1001 for GoingAway; the
values are the standard WebSocket close codes those names denote.  A status
is modelled by its numeric code. -/

def OK : Nat := 1000

def GOING_AWAY : Nat := 1001

def PROTOCOL_ERROR : Nat := 1002

def UNKNOWN_MESSAGE_TYPE : Nat := 1003

def INVALID_DATA_TYPE : Nat := 1007

def POLICY_VIOLATION : Nat := 1008

def MESSAGE_TOO_LARGE : Nat := 1009

def EXTENSION_REQUIRED : Nat := 1010

def INTERNAL_SERVER_ERROR : Nat := 1011

/-- `WebSocketRouter::close_status` (`router.rs` lines 315-345).  The input
models the close frame body: `none` when no body chunk arrives,
`some none` when `WebSocketStatus::decode` fails, and `some (some c)` when it
decodes to the status with code `c` (`decode` itself is outside the provided
sources). -/
def close_status : Option (Option Nat) → Nat
  | some (some status) =>
    if status = OK then OK
    else if status = GOING_AWAY then OK
    else if status = EXTENSION_REQUIRED then OK
    else if status = UNKNOWN_MESSAGE_TYPE then UNKNOWN_MESSAGE_TYPE
    else if status = INVALID_DATA_TYPE then INVALID_DATA_TYPE
    else if status = POLICY_VIOLATION then POLICY_VIOLATION
    else if status = MESSAGE_TOO_LARGE then MESSAGE_TOO_LARGE
    else if status = INTERNAL_SERVER_ERROR then INTERNAL_SERVER_ERROR
    else if 3000 ≤ status ∧ status ≤ 4999 then OK
    else PROTOCOL_ERROR
  | some none => PROTOCOL_ERROR
  | none => OK

/-! ## UTF-8 decoding

Models Rust's `std::str::from_utf8` / `String::from_utf8` validation (an
external collaborator of `router.rs`): bytes decode to a character list
exactly when they are valid UTF-8 (shortest form, no surrogates, max
U+10FFFF). -/

def utf8Decode : List Nat → Option (List Char)
  | [] => some []
  | b :: rest =>
    if b ≤ 0x7F then
      match utf8Decode rest with
      | some cs => some (Char.ofNat b :: cs)
      | none => none
    else if 0xC2 ≤ b ∧ b ≤ 0xDF then
      match rest with
      | b2 :: rest2 =>
        if 0x80 ≤ b2 ∧ b2 ≤ 0xBF then
          match utf8Decode rest2 with
          | some cs => some (Char.ofNat ((b - 0xC0) * 64 + (b2 - 0x80)) :: cs)
          | none => none
        else none
      | [] => none
    else if 0xE0 ≤ b ∧ b ≤ 0xEF then
      match rest with
      | b2 :: b3 :: rest3 =>
        if (if b = 0xE0 then 0xA0 else 0x80) ≤ b2 ∧ b2 ≤ (if b = 0xED then 0x9F else 0xBF) ∧
            0x80 ≤ b3 ∧ b3 ≤ 0xBF then
          match utf8Decode rest3 with
          | some cs =>
            some (Char.ofNat ((b - 0xE0) * 4096 + (b2 - 0x80) * 64 + (b3 - 0x80)) :: cs)
          | none => none
        else none
      | _ => none
    else if 0xF0 ≤ b ∧ b ≤ 0xF4 then
      match rest with
      | b2 :: b3 :: b4 :: rest4 =>
        if (if b = 0xF0 then 0x90 else 0x80) ≤ b2 ∧ b2 ≤ (if b = 0xF4 then 0x8F else 0xBF) ∧
            0x80 ≤ b3 ∧ b3 ≤ 0xBF ∧ 0x80 ≤ b4 ∧ b4 ≤ 0xBF then
          match utf8Decode rest4 with
          | some cs =>
            some (Char.ofNat
              ((b - 0xF0) * 262144 + (b2 - 0x80) * 4096 + (b3 - 0x80) * 64 + (b4 - 0x80)) :: cs)
          | none => none
        else none
      | _ => none
    else none

/-- Splitting a character list at every separator `SEP_CHAR`, the semantics of
Rust's `str::split` with a one-character pattern (`n` separators yield `n + 1`
parts, empty parts included; the empty input yields one empty part). -/
def splitSep : List Char → List (List Char)
  | [] => [[]]
  | c :: rest =>
    if c = SEP_CHAR then [] :: splitSep rest
    else
      match splitSep rest with
      | p :: ps => (c :: p) :: ps
      | [] => [[c]]

/-! ## The multiplex classifier (router.rs lines 510-537) -/

/-- The scan `topic.windows(2).enumerate().find(|c| c == MULTIPLEX_CONTROL_CHAR)`
(`router.rs` lines 516-519): index of the first two-byte window equal to the
separator, if any. -/
def findSepFrom : List Nat → Nat → Option Nat
  | b1 :: b2 :: rest, i =>
    if [b1, b2] = MULTIPLEX_CONTROL_CHAR then some i
    else findSepFrom (b2 :: rest) (i + 1)
  | _, _ => none

def findSep (l : List Nat) : Option Nat := findSepFrom l 0

/-- `MultiplexError` (`router.rs` lines 580-586); the two parse-failure
variants keep their names but drop the carried error values. -/
inductive MultiplexError
  | TopicNotPresent
  | NotSubscribed
  | ControlMessage
  | Utf8Error
  | UrlError
deriving Repr, DecidableEq

/-- The textual response `MultiplexError::send_message` produces
(`router.rs` lines 588-613). -/
def MultiplexError.text : MultiplexError → String
  | .TopicNotPresent => "ERR·Topic not present"
  | .NotSubscribed => "ERR·Not subscribed to topic"
  | .ControlMessage => "ERR·Unexpected control message"
  | .Utf8Error => "ERR·Topic was not valid utf8"
  | .UrlError => "ERR·Topic was not a valid url"

/-- `WebSocketRouter::multiplex_get_request` (`router.rs` lines 510-537).
Topics (`Origin` URIs) are an abstract type `τ` with decidable equality;
`parse` is the oracle for `Origin::parse` (the URI grammar is an external
collaborator).  Returns the classification together with the updated
`Data`. -/
def multiplex_get_request {τ : Type} [DecidableEq τ] (parse : List Char → Option τ)
    (subscriptions : List τ) (d : Data) : Except MultiplexError τ × Data :=
  let p := d.peek (MAX_TOPIC_LENGTH + MULTIPLEX_CONTROL_CHAR.length)
  match findSep p.1 with
  | none => (.error .TopicNotPresent, p.2)
  | some index =>
    if index = 0 then (.error .ControlMessage, p.2)
    else
      let t := p.2.take (index + MULTIPLEX_CONTROL_CHAR.length)
      match utf8Decode (t.1.take index) with
      | none => (.error .Utf8Error, t.2)
      | some s =>
        match parse s with
        | none => (.error .UrlError, t.2)
        | some topic =>
          match subscriptions.find? (fun r => r = topic) with
          | some r => (.ok r, t.2)
          | none => (.error .NotSubscribed, t.2)

/-- `MultiplexAction` (`router.rs` lines 575-578). -/
inductive MultiplexAction (τ : Type)
  | Subscribe (topic : τ)
  | Unsubscribe (topic : τ)
deriving Repr, DecidableEq

/-- `WebSocketRouter::handle_control` (`router.rs` lines 539-572): take the
first 512 bytes, require valid UTF-8, split on the separator, require an
empty part before the leading separator, then match the action token and its
single topic parameter. -/
def handle_control {τ : Type} (parse : List Char → Option τ) (d : Data) :
    Except String (MultiplexAction τ) × Data :=
  let t := d.take 512
  match utf8Decode t.1 with
  | none => (.error "INVALID·Non UTF-8", t.2)
  | some message =>
    match splitSep message with
    | [] => (.error "INVALID·Improperly formatted message", t.2)
    | first :: parts =>
      if first.isEmpty then
        match parts with
        | [] => (.error "INVALID·Improperly formatted message", t.2)
        | action :: parts2 =>
          if action = "SUBSCRIBE".toList then
            match parts2 with
            | [] => (.error "ERR·Missing topic parameter", t.2)
            | topic :: parts3 =>
              if parts3.isEmpty then
                match parse topic with
                | none => (.error "ERR·Invalid topic Uri", t.2)
                | some tp => (.ok (.Subscribe tp), t.2)
              else (.error "ERR·To many arguments", t.2)
          else if action = "UNSUBSCRIBE".toList then
            match parts2 with
            | [] => (.error "ERR·Missing topic parameter", t.2)
            | topic :: parts3 =>
              if parts3.isEmpty then
                match parse topic with
                | none => (.error "ERR·Invalid topic Uri", t.2)
                | some tp => (.ok (.Unsubscribe tp), t.2)
              else (.error "Err·To many arguments", t.2)
          else (.error "INVALID·Unkown control message", t.2)
      else (.error "INVALID·Improperly formatted message", t.2)

/-! ## The event router (router.rs lines 134-186)

Routes are modelled by a match predicate over an abstract request type `ρ`
plus a handler oracle over an abstract message type `δ`; a handler returning
`none` models a panicking handler (caught by `handle`, logged, and converted
to `INTERNAL_SERVER_ERROR`).  Statuses are numeric codes as above;
`WebSocketStatus::internal(404)` is the `NotFound`-equivalent failure. -/

def NOT_FOUND : Nat := 404

/-- The three lifecycle event kinds (`router.rs` lines 74-79). -/
inductive Event
  | Join
  | Message
  | Leave
deriving Repr, DecidableEq

/-- One registered websocket route: its matcher and its handler capability.
`WsOutcome` is collapsed into `Option`/`Sum`/`Except`: the handler returns
`none` for a panic, `some (.inr msg)` for `Forward(msg)`, and `some (.inl r)`
with `r : Except Nat Unit` for `Failure(status)` / `Success(())`. -/
structure MRoute (ρ δ : Type) where
  accepts : ρ → Bool
  handler : δ → Option (Except Nat Unit ⊕ δ)

/-- One pass over a route list (the `for route in …` loops of
`handle_message`, `router.rs` lines 140-159 and 164-183): the first matching
route whose handler does not forward decides the result; forwards replace the
message; a panicking handler yields `INTERNAL_SERVER_ERROR`.  Returns `none`
and the final (possibly forwarded) message when the list is exhausted. -/
def runRoutes {ρ δ : Type} : List (MRoute ρ δ) → ρ → δ → Option (Except Nat Unit) × δ
  | [], _, msg => (none, msg)
  | r :: rs, req, msg =>
    if r.accepts req then
      match r.handler msg with
      | some (.inl res) => (some res, msg)
      | some (.inr fwd) => runRoutes rs req fwd
      | none => (some (.error INTERNAL_SERVER_ERROR), msg)
    else runRoutes rs req msg

/-- `WebSocketRouter::handle_message` (`router.rs` lines 134-186): run the
event's route list; on exhaustion, a Join event is retried against the
Message route list; exhaustion of that (or of the list of any other event)
yields `WebSocketStatus::internal(404)`. -/
def handle_message {ρ δ : Type} (routes : Event → List (MRoute ρ δ))
    (event : Event) (req : ρ) (msg : δ) : Except Nat Unit :=
  let r1 := runRoutes (routes event) req msg
  match r1.1 with
  | some res => res
  | none =>
    if event = Event.Join then
      match (runRoutes (routes Event.Message) req r1.2).1 with
      | some res => res
      | none => .error NOT_FOUND
    else .error NOT_FOUND

/-- The dispatch decision of `WebSocketRouter::handle` (`router.rs` lines
245-255): a successful Join sends the 101 upgrade response and the websocket
task runs; a failed Join sends the HTTP error response
`s.to_http().unwrap_or(Status::NotFound)` and returns without starting any
websocket task.  `toHttp` is the oracle for `WebSocketStatus::to_http` (not
under the provided sources); the result is the HTTP response status together
with whether the websocket task starts. -/
def join_dispatch (toHttp : Nat → Option Nat) (join : Except Nat Unit) : Nat × Bool :=
  match join with
  | .ok _ => (101, true)
  | .error s => ((toHttp s).getD 404, false)

/-! ## The multiplexed connection loop (router.rs lines 391-497)

The per-connection state observable from `websocket_task_multiplexed`: the
subscription vector (by topic), the sequence of broker calls made, the
outbound text messages sent through `error_message`, and the lifecycle events
dispatched through `handle_message`.  User handlers and `Origin::parse` are
oracles collected in `Handlers`. -/

inductive BrokerOp (τ : Type)
  | subscribe (topic : τ)
  | unsubscribe (topic : τ)
  | unsubscribeAll
deriving Repr, DecidableEq

inductive EventRec (τ : Type)
  | join (topic : τ)
  | message (topic : τ) (payload : List Nat)
  | leave (topic : τ)
deriving Repr, DecidableEq

structure ConnState (τ : Type) where
  subs : List τ
  brokerOps : List (BrokerOp τ)
  sent : List String
  events : List (EventRec τ)
  closeSent : Option Nat
deriving Repr, DecidableEq

/-- The handler/collaborator oracles of one multiplexed connection:
`parse` for `Origin::parse`, `join`/`msg`/`leave` for the router outcomes of
the three event kinds, `showStatus` for the `Display` rendering of a
`WebSocketStatus` (used by `format!("ERR\u{b7}{}", s)`). -/
structure Handlers (τ : Type) where
  parse : List Char → Option τ
  join : τ → Except Nat Unit
  msg : τ → List Nat → Except Nat Unit
  leave : τ → Except Nat Unit
  showStatus : Nat → String

/-- `WebSocketRouter::remove_topic` (`router.rs` lines 499-508): remove and
return the first subscription whose topic equals `topic`, or `none`. -/
def remove_topic {τ : Type} [DecidableEq τ] : List τ → τ → Option (τ × List τ)
  | [], _ => none
  | s :: rest, topic =>
    if s = topic then some (s, rest)
    else
      match remove_topic rest topic with
      | some (r, rest2) => some (r, s :: rest2)
      | none => none

/-- The `Ok(MultiplexAction::Subscribe(topic))` arm of
`websocket_task_multiplexed` (`router.rs` lines 438-466): if some
subscription already has the topic, answer `ERR·Already Subscribed`;
otherwise run a Join event for the topic and, on success, subscribe with the
broker and append the new logical connection, while on failure answer
`ERR·<status>`. -/
def subscribeStep {τ : Type} [DecidableEq τ] (H : Handlers τ) (st : ConnState τ)
    (topic : τ) : ConnState τ :=
  if (st.subs.find? (fun r => r = topic)).isNone then
    match H.join topic with
    | .ok _ =>
      { st with
        events := st.events ++ [.join topic],
        brokerOps := st.brokerOps ++ [.subscribe topic],
        subs := st.subs ++ [topic] }
    | .error s =>
      { st with
        events := st.events ++ [.join topic],
        sent := st.sent ++ ["ERR·" ++ H.showStatus s] }
  else { st with sent := st.sent ++ ["ERR·Already Subscribed"] }

/-- The `Ok(MultiplexAction::Unsubscribe(topic))` arm of
`websocket_task_multiplexed` (`router.rs` lines 467-482): if a subscription
with the topic exists, remove it, unsubscribe it from the broker and run a
Leave event whose outcome is discarded; otherwise answer
`ERR·Not Subscribed`. -/
def unsubscribeStep {τ : Type} [DecidableEq τ] (H : Handlers τ) (st : ConnState τ)
    (topic : τ) : ConnState τ :=
  match remove_topic st.subs topic with
  | some (leaveReq, rest) =>
    match H.leave leaveReq with
    | .ok _ =>
      { st with
        subs := rest,
        brokerOps := st.brokerOps ++ [.unsubscribe leaveReq],
        events := st.events ++ [.leave leaveReq] }
    | .error _ =>
      { st with
        subs := rest,
        brokerOps := st.brokerOps ++ [.unsubscribe leaveReq],
        events := st.events ++ [.leave leaveReq] }
  | none => { st with sent := st.sent ++ ["ERR·Not Subscribed"] }

/-- One message delivered to the `while let Some(message) = ws.next()` loop:
a Text/Binary data frame (its payload as transport chunks), a Ping/Pong, or a
Close frame whose body is modelled as for `close_status`. -/
inductive Incoming
  | frame (binary : Bool) (chunks : List (List Nat))
  | ping
  | pong
  | close (body : Option (Option Nat))

/-- The body of the multiplexed event loop (`router.rs` lines 406-489) for
one incoming message.  Returns the new state and `true` when the loop
continues (`false` exactly for a Close frame).  The `Ok(request)` arm runs a
Message event whose result is discarded (`match res { Ok(()) => (), Err(_s)
=> () }`, lines 428-431); classification errors and control-command errors
answer with `error_message` and keep looping. -/
def loopStep {τ : Type} [DecidableEq τ] (H : Handlers τ) (shouldSendClose : Bool)
    (st : ConnState τ) : Incoming → ConnState τ × Bool
  | .ping => (st, true)
  | .pong => (st, true)
  | .close body =>
    if shouldSendClose then ({ st with closeSent := some (close_status body) }, false)
    else (st, false)
  | .frame binary chunks =>
    let d := Data.fromWs chunks (some binary)
    match multiplex_get_request H.parse st.subs d with
    | (.ok topic, d1) =>
      let payload := d1.contents
      match H.msg topic payload with
      | .ok _ => ({ st with events := st.events ++ [.message topic payload] }, true)
      | .error _ => ({ st with events := st.events ++ [.message topic payload] }, true)
    | (.error .ControlMessage, d1) =>
      match handle_control H.parse d1 with
      | (.error m, _) => ({ st with sent := st.sent ++ [m] }, true)
      | (.ok (.Subscribe topic), _) => (subscribeStep H st topic, true)
      | (.ok (.Unsubscribe topic), _) => (unsubscribeStep H st topic, true)
    | (.error e, _) => ({ st with sent := st.sent ++ [e.text] }, true)

/-! ## The incoming-payload drain state (websockets.rs lines 129-355) -/

/-- `RunningMessage` (`websockets.rs` lines 129-134): buffered (not yet
unmasked) bytes, declared remaining byte count, mask rotation cursor, and the
four mask bytes. -/
structure RunningMessage where
  current : List Nat
  remaining : Nat
  cur : Nat
  mask : List Nat
deriving Repr, DecidableEq

/-- The XOR-unmask loop of `continue_message` (`websockets.rs` lines
332-335): every byte of `current` is XORed with the mask byte at the rotating
cursor. -/
def xorUnmask : List Nat → Nat → List Nat → List Nat × Nat
  | [], cur, _ => ([], cur)
  | b :: rest, cur, mask =>
    let r := xorUnmask rest ((cur + 1) % 4) mask
    (Nat.xor b (mask.getD cur 0) :: r.1, r.2)

/-- `WebsocketChannel::continue_message` (`websockets.rs` lines 328-339):
unmask `current`, then send its first `min current.len remaining` bytes to
the data channel.  Returns the updated running message and the chunk sent. -/
def continue_message (r : RunningMessage) : RunningMessage × List Nat :=
  let u := xorUnmask r.current r.cur r.mask
  let n := min u.1.length r.remaining
  ({ r with current := u.1.drop n, cur := u.2 }, u.1.take n)

/-- `WebsocketChannel::read_next_part` (`websockets.rs` lines 341-355): while
`remaining > 0`, read more transport bytes into the read buffer; at
`remaining = 0` the running message is cleared.  `transport` is the list of
chunks future reads return. -/
def read_next_part : Option RunningMessage → List Nat → List (List Nat) →
    Option RunningMessage × List Nat × List (List Nat)
  | some r, readBuf, transport =>
    if 0 < r.remaining then
      match transport with
      | c :: rest => (some r, readBuf ++ c, rest)
      | [] => (some r, readBuf, [])
    else (none, readBuf, transport)
  | none, readBuf, transport => (none, readBuf, transport)

/-- The creation of a `RunningMessage` inside `send_message`
(`websockets.rs` lines 297-319): `current` takes `min read_buf.len L` bytes
off the read buffer, `remaining` records the declared payload length `L`,
the cursor starts at 0. -/
def makeRunningMessage (payloadLen : Nat) (mask : List Nat) (readBuf : List Nat) :
    RunningMessage × List Nat :=
  ({ current := readBuf.take (min readBuf.length payloadLen),
     remaining := payloadLen, cur := 0, mask := mask },
   readBuf.drop (min readBuf.length payloadLen))

/-- The per-connection drain state: the optional running message, the
transport read buffer, the chunks forwarded so far to the message's byte
producer, and the unread transport chunks. -/
structure DrainState where
  running : Option RunningMessage
  readBuf : List Nat
  forwarded : List (List Nat)
  transport : List (List Nat)
deriving Repr, DecidableEq

/-- One round of the second `select!` branch (`websockets.rs` lines 201-209):
`continue_message` on the running message, then `read_next_part`.  A `none`
running message leaves the state unchanged (the branch is `pending()`). -/
def drainStep (s : DrainState) : DrainState :=
  match s.running with
  | none => s
  | some r =>
    let cm := continue_message r
    let rp := read_next_part (some cm.1) s.readBuf s.transport
    { running := rp.1, readBuf := rp.2.1,
      forwarded := s.forwarded ++ [cm.2], transport := rp.2.2 }


/-! ## Concrete fixtures used by witnesses and counterexamples -/

/-- ASCII bytes of a string (all fixture strings are ASCII). -/
def asciiBytes (s : String) : List Nat := s.toList.map Char.toNat

def sepBytes : List Nat := MULTIPLEX_CONTROL_CHAR

/-- A concrete `Origin::parse` oracle recognizing the two topics `/a` and
`/b`. -/
def exParse : List Char → Option Nat := fun s =>
  if s = "/a".toList then some 0 else if s = "/b".toList then some 1 else none

/-- Concrete handlers: Join and Leave succeed, every Message handler fails
with `POLICY_VIOLATION`. -/
def exHandlers : Handlers Nat :=
  { parse := exParse, join := fun _ => .ok (), msg := fun _ _ => .error POLICY_VIOLATION,
    leave := fun _ => .ok (), showStatus := fun n => toString n }

/-- A connection subscribed exactly to topic `/a` (topic 0). -/
def exState : ConnState Nat :=
  { subs := [0], brokerOps := [], sent := [], events := [], closeSent := none }

/-- Routes for the Join-fallback counterexample: no Join route, one
always-matching Message route whose handler fails with
`POLICY_VIOLATION`. -/
def fallbackRoutes : Event → List (MRoute Unit Unit) := fun e =>
  match e with
  | .Message => [{ accepts := fun _ => true,
                   handler := fun _ => some (.inl (.error POLICY_VIOLATION)) }]
  | _ => []

/-- Drain state right after `send_message` created the running message for a
frame with declared payload length 1, zero mask, and its single payload byte
0x41 already in the read buffer. -/
def drainEx : DrainState :=
  { running := some (makeRunningMessage 1 [0, 0, 0, 0] [65]).1,
    readBuf := (makeRunningMessage 1 [0, 0, 0, 0] [65]).2,
    forwarded := [], transport := [] }

/-! ## Theorems -/

theorem fillBuffer_contents (stream : List (List Nat)) :
    ∀ (buffer : List Nat) (num : Nat),
      (fillBuffer buffer stream num).1 ++ (fillBuffer buffer stream num).2.1.flatten
        = buffer ++ stream.flatten := by
  induction stream with
  | nil =>
    intro buffer num
    rw [fillBuffer]
    split <;> simp
  | cons c rest ih =>
    intro buffer num
    rw [fillBuffer]
    split
    · simp
    · by_cases hc : c.isEmpty = true
      · rw [if_pos hc]
        simp [List.isEmpty_iff.mp hc]
      · rw [if_neg hc, ih]
        simp

theorem fillBuffer_grows (stream : List (List Nat)) :
    ∀ (buffer : List Nat) (num : Nat),
      (fillBuffer buffer stream num).1.take buffer.length = buffer := by
  induction stream with
  | nil =>
    intro buffer num
    rw [fillBuffer]
    split <;> simp
  | cons c rest ih =>
    intro buffer num
    rw [fillBuffer]
    split
    · simp
    · by_cases hc : c.isEmpty = true
      · rw [if_pos hc]
        simp
      · rw [if_neg hc]
        have h1 := ih (buffer ++ c) num
        have h2 : ((fillBuffer (buffer ++ c) rest num).1.take
            (buffer ++ c).length).take buffer.length = buffer := by
          rw [h1]; simp
        rw [List.take_take] at h2
        simpa [Nat.min_eq_left (by simp : buffer.length ≤ (buffer ++ c).length)] using h2

/-- The peeked slice is the prefix of the updated buffer of length
`min PEEK_BYTES num` (or the whole buffer if shorter). -/
theorem Data.peek_eq (d : Data) (num : Nat) :
    (d.peek num).1 = (d.peek num).2.buffer.take (min PEEK_BYTES num) := by
  unfold Data.peek
  split
  · simp
  · simp [List.take_take, Nat.min_comm]

theorem Data.peek_contents (d : Data) (num : Nat) :
    (d.peek num).2.contents = d.contents := by
  unfold Data.peek
  split
  · rfl
  · simp [Data.contents, fillBuffer_contents]

theorem Data.peek_length (d : Data) (num : Nat) :
    (d.peek num).1.length = min (min PEEK_BYTES num) (d.peek num).2.buffer.length := by
  rw [Data.peek_eq]
  simp [Nat.min_comm]

theorem take_min_length (l : List α) (n : Nat) : l.take (min n l.length) = l.take n := by
  rcases Nat.le_total n l.length with h | h
  · rw [Nat.min_eq_left h]
  · rw [Nat.min_eq_right h, List.take_length, List.take_of_length_le h]

theorem Data.take_eq_peek (d : Data) (num : Nat) : (d.take num).1 = (d.peek num).1 := by
  unfold Data.take
  dsimp only
  rw [Data.peek_length, Data.peek_eq, take_min_length]

theorem Data.take_contents (d : Data) (num : Nat) :
    (d.take num).1 ++ (d.take num).2.contents = d.contents := by
  rw [← Data.peek_contents d num]
  unfold Data.take
  simp only [Data.contents, ← List.append_assoc, List.take_append_drop]

/-- When `num ≤ PEEK_BYTES` bytes are already buffered, `take` consumes
exactly `num` bytes and leaves the rest of the buffer. -/
theorem Data.take_exact (d : Data) (num : Nat)
    (h512 : num ≤ PEEK_BYTES) (hbuf : num ≤ d.buffer.length) :
    d.take num = (d.buffer.take num, { d with buffer := d.buffer.drop num }) := by
  have hmin : min PEEK_BYTES num = num := Nat.min_eq_right h512
  have hpeek : d.peek num = (d.buffer.take num, d) := by
    unfold Data.peek
    rw [hmin, if_pos hbuf]
  unfold Data.take
  rw [hpeek]
  simp [List.length_take, Nat.min_eq_left hbuf, take_min_length]


/-- C10: `Data::peek` returns at most `min num 512` bytes; `Data::take`
returns exactly the bytes `peek` would return and removes them from the
front, so peek-then-take loses no bytes and everything after the taken
prefix remains readable in order. -/
theorem data_peek_take_spec (d : Data) (num : Nat) :
    (d.peek num).1.length ≤ min num 512 ∧
    (d.take num).1 = (d.peek num).1 ∧
    d.contents = (d.take num).1 ++ (d.take num).2.contents := by
  refine ⟨?_, Data.take_eq_peek d num, (Data.take_contents d num).symm⟩
  rw [Data.peek_length]
  simp only [PEEK_BYTES]
  omega

theorem data_peek_take_spec_witness :
    ((Data.fromWs [[1, 2, 3]] none).peek 2).1.length ≤ min 2 512 ∧
    ((Data.fromWs [[1, 2, 3]] none).take 2).1 = ((Data.fromWs [[1, 2, 3]] none).peek 2).1 :=
  ⟨(data_peek_take_spec (Data.fromWs [[1, 2, 3]] none) 2).1,
   (data_peek_take_spec (Data.fromWs [[1, 2, 3]] none) 2).2.1⟩

/-- C2: the close-status normalization table.  An inbound close body that is
absent maps to OK; an undecodable one maps to PROTOCOL_ERROR; a decoded code
maps to OK for OK/GOING_AWAY/EXTENSION_REQUIRED and the reserved range
3000-4999, passes through unchanged for UNKNOWN_MESSAGE_TYPE,
INVALID_DATA_TYPE, POLICY_VIOLATION, MESSAGE_TOO_LARGE and
INTERNAL_SERVER_ERROR, and maps to PROTOCOL_ERROR otherwise. -/
theorem close_status_normalization :
    close_status none = OK ∧
    close_status (some none) = PROTOCOL_ERROR ∧
    ∀ c : Nat, close_status (some (some c)) =
      if c = OK ∨ c = GOING_AWAY ∨ c = EXTENSION_REQUIRED ∨ (3000 ≤ c ∧ c ≤ 4999) then OK
      else if c = UNKNOWN_MESSAGE_TYPE ∨ c = INVALID_DATA_TYPE ∨ c = POLICY_VIOLATION ∨
          c = MESSAGE_TOO_LARGE ∨ c = INTERNAL_SERVER_ERROR then c
      else PROTOCOL_ERROR := by
  refine ⟨rfl, rfl, fun c => ?_⟩
  simp only [close_status, OK, GOING_AWAY, EXTENSION_REQUIRED, UNKNOWN_MESSAGE_TYPE,
    INVALID_DATA_TYPE, POLICY_VIOLATION, MESSAGE_TOO_LARGE, INTERNAL_SERVER_ERROR,
    PROTOCOL_ERROR]
  split_ifs <;> omega

theorem close_status_normalization_witness :
    close_status (some (some 1001)) = OK ∧ close_status (some (some 3500)) = OK ∧
    close_status (some (some 1008)) = 1008 ∧ close_status (some (some 5)) = PROTOCOL_ERROR :=
  ⟨(close_status_normalization.2.2 1001).trans (by decide),
   (close_status_normalization.2.2 3500).trans (by decide),
   (close_status_normalization.2.2 1008).trans (by decide),
   (close_status_normalization.2.2 5).trans (by decide)⟩


theorem find_self_eq_none {τ : Type} [DecidableEq τ] (l : List τ) (t : τ) :
    (l.find? (fun r => r = t)).isNone = true ↔ t ∉ l := by
  rw [Option.isNone_iff_eq_none, List.find?_eq_none]
  constructor
  · intro h hm
    have := h t hm
    simp at this
  · intro h x hx
    simp only [decide_eq_true_eq]
    intro he
    exact h (he ▸ hx)

theorem find_self_of_mem {τ : Type} [DecidableEq τ] (l : List τ) (t : τ) (h : t ∈ l) :
    l.find? (fun r => r = t) = some t := by
  induction l with
  | nil => cases h
  | cons s rest ih =>
    rw [List.find?]
    by_cases hs : s = t
    · subst hs
      simp
    · have hb : (fun r => decide (r = t)) s = false := by simp [hs]
      simp only [hb]
      rcases List.mem_cons.mp h with he | hm
      · exact absurd he.symm hs
      · exact ih hm

/-- C3: SUBSCRIBE semantics.  If the topic is already among the
subscriptions, the only effect is the outbound text `ERR·Already Subscribed`
(in particular no Join event is recorded); otherwise a Join event runs, and
on success the broker is subscribed and the logical connection appended,
while on failure `s` the outbound text `ERR·<s>` is sent and the
subscriptions are unchanged. -/
theorem subscribeStep_semantics {τ : Type} [DecidableEq τ] (H : Handlers τ)
    (st : ConnState τ) (topic : τ) :
    (topic ∈ st.subs →
      subscribeStep H st topic = { st with sent := st.sent ++ ["ERR·Already Subscribed"] }) ∧
    (topic ∉ st.subs → H.join topic = .ok () →
      subscribeStep H st topic = { st with
        events := st.events ++ [.join topic],
        brokerOps := st.brokerOps ++ [.subscribe topic],
        subs := st.subs ++ [topic] }) ∧
    (∀ s, topic ∉ st.subs → H.join topic = .error s →
      subscribeStep H st topic = { st with
        events := st.events ++ [.join topic],
        sent := st.sent ++ ["ERR·" ++ H.showStatus s] }) := by
  refine ⟨fun hmem => ?_, fun hmem hok => ?_, fun s hmem herr => ?_⟩
  · unfold subscribeStep
    rw [find_self_of_mem st.subs topic hmem]
    rfl
  · unfold subscribeStep
    rw [if_pos ((find_self_eq_none st.subs topic).mpr hmem), hok]
  · unfold subscribeStep
    rw [if_pos ((find_self_eq_none st.subs topic).mpr hmem), herr]

theorem subscribeStep_semantics_witness :
    subscribeStep exHandlers exState 0
      = { exState with sent := exState.sent ++ ["ERR·Already Subscribed"] } ∧
    subscribeStep exHandlers exState 1 = { exState with
      events := exState.events ++ [.join 1],
      brokerOps := exState.brokerOps ++ [.subscribe 1],
      subs := exState.subs ++ [1] } :=
  ⟨(subscribeStep_semantics exHandlers exState 0).1 (by decide),
   (subscribeStep_semantics exHandlers exState 1).2.1 (by decide) rfl⟩

theorem remove_topic_eq_none {τ : Type} [DecidableEq τ] (l : List τ) (t : τ) :
    remove_topic l t = none ↔ t ∉ l := by
  induction l with
  | nil => simp [remove_topic]
  | cons s rest ih =>
    rw [remove_topic]
    by_cases h : s = t
    · subst h
      simp
    · rw [if_neg h]
      rcases hr : remove_topic rest t with _ | p
      · have ht : t ∉ rest := ih.mp hr
        simp only [List.mem_cons]
        constructor
        · intro _ hc
          rcases hc with he | hm
          · exact h he.symm
          · exact ht hm
        · intro _
          trivial
      · have ht : t ∈ rest := by
          by_contra hc
          rw [ih.mpr hc] at hr
          cases hr
        simp only [List.mem_cons]
        constructor
        · intro hc
          cases hc
        · intro hc
          exact absurd (Or.inr ht) hc

theorem remove_topic_some_eq {τ : Type} [DecidableEq τ] (l : List τ) (t : τ) :
    ∀ r rest, remove_topic l t = some (r, rest) → r = t := by
  induction l with
  | nil =>
    intro r rest h
    simp [remove_topic] at h
  | cons s tail ih =>
    intro r rest h
    rw [remove_topic] at h
    by_cases hs : s = t
    · rw [if_pos hs] at h
      cases h
      exact hs
    · rw [if_neg hs] at h
      rcases hr : remove_topic tail t with _ | ⟨r2, rest2⟩
      · rw [hr] at h
        cases h
      · rw [hr] at h
        cases h
        exact ih _ _ hr

/-- C4: UNSUBSCRIBE semantics.  If no subscription has the topic
(equivalently, `remove_topic` returns `none`), the only effect is the
outbound text `ERR·Not Subscribed`; otherwise the matching logical connection
(which equals the topic) is removed, the broker unsubscribed, and a Leave
event recorded — and the resulting state never depends on the Leave
handler's outcome, so its failure is not reported back (`sent` unchanged). -/
theorem unsubscribeStep_semantics {τ : Type} [DecidableEq τ] (H : Handlers τ)
    (st : ConnState τ) (topic : τ) :
    (remove_topic st.subs topic = none ↔ topic ∉ st.subs) ∧
    (remove_topic st.subs topic = none →
      unsubscribeStep H st topic = { st with sent := st.sent ++ ["ERR·Not Subscribed"] }) ∧
    (∀ r rest, remove_topic st.subs topic = some (r, rest) →
      r = topic ∧
      unsubscribeStep H st topic = { st with
        subs := rest,
        brokerOps := st.brokerOps ++ [.unsubscribe r],
        events := st.events ++ [.leave r] }) := by
  refine ⟨remove_topic_eq_none st.subs topic, fun hnone => ?_, fun r rest hsome => ?_⟩
  · unfold unsubscribeStep
    rw [hnone]
  · refine ⟨remove_topic_some_eq st.subs topic r rest hsome, ?_⟩
    unfold unsubscribeStep
    simp only [hsome]
    split <;> rfl

theorem unsubscribeStep_semantics_witness :
    unsubscribeStep exHandlers exState 1
      = { exState with sent := exState.sent ++ ["ERR·Not Subscribed"] } ∧
    unsubscribeStep exHandlers exState 0 = { exState with
      subs := [],
      brokerOps := exState.brokerOps ++ [.unsubscribe 0],
      events := exState.events ++ [.leave 0] } :=
  ⟨(unsubscribeStep_semantics exHandlers exState 1).2.1 (by decide),
   ((unsubscribeStep_semantics exHandlers exState 0).2.2 0 [] (by decide)).2⟩


theorem subscribeStep_closeSent {τ : Type} [DecidableEq τ] (H : Handlers τ)
    (st : ConnState τ) (t : τ) : (subscribeStep H st t).closeSent = st.closeSent := by
  unfold subscribeStep
  split
  · split <;> rfl
  · rfl

theorem unsubscribeStep_closeSent {τ : Type} [DecidableEq τ] (H : Handlers τ)
    (st : ConnState τ) (t : τ) : (unsubscribeStep H st t).closeSent = st.closeSent := by
  unfold unsubscribeStep
  split
  · split <;> rfl
  · rfl

/-- Every Text/Binary data frame leaves the multiplexed loop running and
never records an outbound close, whatever the classification or handler
outcomes. -/
theorem loopStep_frame_continues {τ : Type} [DecidableEq τ] (H : Handlers τ) (ssc : Bool)
    (st : ConnState τ) (b : Bool) (chunks : List (List Nat)) :
    (loopStep H ssc st (.frame b chunks)).2 = true ∧
    (loopStep H ssc st (.frame b chunks)).1.closeSent = st.closeSent := by
  simp only [loopStep]
  split
  all_goals try split
  all_goals
    first
      | exact ⟨rfl, rfl⟩
      | exact ⟨rfl, subscribeStep_closeSent _ _ _⟩
      | exact ⟨rfl, unsubscribeStep_closeSent _ _ _⟩

/-- C5: refuted by the code.  The connection `exState` holds its single
logical connection (topic 0, i.e. `/a`); one UNSUBSCRIBE control message for
`/a` removes it, leaving the subscription set empty while the physical
socket is still open (the step reports `continue`). -/
theorem unsubscribe_removes_last_subscription :
    exState.subs.length = 1 ∧
    (loopStep exHandlers true exState
      (.frame false [sepBytes ++ asciiBytes "UNSUBSCRIBE" ++ sepBytes ++ asciiBytes "/a"])).1.subs
      = [] ∧
    (loopStep exHandlers true exState
      (.frame false [sepBytes ++ asciiBytes "UNSUBSCRIBE" ++ sepBytes ++ asciiBytes "/a"])).2
      = true := by
  refine ⟨rfl, by decide, by decide⟩

/-- C6 counterexample: the Message handler fails with `POLICY_VIOLATION` on
the data message `/a·hi`, a Message event for topic `/a` does fire, and yet
the loop neither stops nor records an outbound close — the connection is not
closed, contradicting the claim. -/
theorem message_failure_leaves_connection_open :
    exHandlers.msg 0 (asciiBytes "hi") = .error POLICY_VIOLATION ∧
    (loopStep exHandlers true exState
      (.frame false [asciiBytes "/a" ++ sepBytes ++ asciiBytes "hi"])).1.events
      = [.message 0 (asciiBytes "hi")] ∧
    ¬ ((loopStep exHandlers true exState
          (.frame false [asciiBytes "/a" ++ sepBytes ++ asciiBytes "hi"])).2 = false ∨
       (loopStep exHandlers true exState
          (.frame false [asciiBytes "/a" ++ sepBytes ++ asciiBytes "hi"])).1.closeSent ≠ none) := by
  refine ⟨rfl, by decide, ?_⟩
  intro hc
  rcases hc with hc | hc
  · exact absurd hc (by decide)
  · exact hc (by decide)

/-- C6 (amended): a `Failure(status)` outcome has these event-kind-specific
consequences: a failed Join sends the error response
`s.to_http().unwrap_or(404)` and starts no websocket task; a failed Message
handler's status is discarded — the loop continues and no close is recorded;
a failed Leave (during UNSUBSCRIBE) changes nothing — the resulting state is
the same whatever the Leave handler returns. -/
theorem failure_consequences_by_event {τ : Type} [DecidableEq τ] :
    (∀ (toHttp : Nat → Option Nat) (s : Nat),
      join_dispatch toHttp (.error s) = ((toHttp s).getD 404, false)) ∧
    (∀ (H : Handlers τ) (ssc : Bool) (st : ConnState τ) (b : Bool) (chunks : List (List Nat)),
      (loopStep H ssc st (.frame b chunks)).2 = true ∧
      (loopStep H ssc st (.frame b chunks)).1.closeSent = st.closeSent) ∧
    (∀ (H H2 : Handlers τ) (st : ConnState τ) (topic : τ),
      H.parse = H2.parse → H.join = H2.join → H.msg = H2.msg →
      H.showStatus = H2.showStatus →
      unsubscribeStep H st topic = unsubscribeStep H2 st topic) := by
  refine ⟨fun toHttp s => rfl, loopStep_frame_continues, ?_⟩
  intro H H2 st topic _ _ _ _
  unfold unsubscribeStep
  rcases hr : remove_topic st.subs topic with _ | ⟨r, rest⟩
  · rfl
  · simp only [hr]
    cases H.leave r <;> cases H2.leave r <;> rfl

theorem failure_consequences_by_event_witness :
    join_dispatch (fun _ => none) (.error 1008) = (404, false) ∧
    (loopStep exHandlers true exState (.frame false [[194]])).2 = true ∧
    unsubscribeStep exHandlers exState 0 = unsubscribeStep exHandlers exState 0 :=
  ⟨(failure_consequences_by_event (τ := Nat)).1 (fun _ => none) 1008,
   ((failure_consequences_by_event (τ := Nat)).2.1 exHandlers true exState false [[194]]).1,
   (failure_consequences_by_event (τ := Nat)).2.2 exHandlers exHandlers exState 0
     rfl rfl rfl rfl⟩

/-- C7 counterexample: with no Join route and a Message route whose handler
fails with `POLICY_VIOLATION`, the Join dispatch exhausts the Join list,
probes the Message list, obtains no Success — and fails with
`POLICY_VIOLATION`, not with the NotFound-equivalent status. -/
theorem join_fallback_failure_not_notfound :
    (runRoutes (fallbackRoutes Event.Join) () ()).1 = none ∧
    handle_message fallbackRoutes Event.Join () () = .error POLICY_VIOLATION ∧
    (Except.error POLICY_VIOLATION : Except Nat Unit) ≠ .error NOT_FOUND := by
  refine ⟨rfl, rfl, fun hc => absurd (Except.error.inj hc) (by decide)⟩

/-- C7 (amended): a route list that decides (Success or Failure or panic)
settles the dispatch with its result; for Message and Leave events an
exhausted list yields the NotFound-equivalent failure directly; for a Join
event an exhausted Join list falls back to the Message list run on the
(possibly forwarded) Join data — a Success there accepts the dispatch, a
Failure there fails the dispatch with that status, and only if the probe too
is exhausted does the dispatch fail with the NotFound-equivalent failure. -/
theorem handle_message_join_fallback {ρ δ : Type} (routes : Event → List (MRoute ρ δ))
    (req : ρ) (msg : δ) :
    (∀ event res, (runRoutes (routes event) req msg).1 = some res →
      handle_message routes event req msg = res) ∧
    (∀ event, event ≠ Event.Join → (runRoutes (routes event) req msg).1 = none →
      handle_message routes event req msg = .error NOT_FOUND) ∧
    ((runRoutes (routes Event.Join) req msg).1 = none →
      handle_message routes Event.Join req msg =
        match (runRoutes (routes Event.Message) req
            (runRoutes (routes Event.Join) req msg).2).1 with
        | some res => res
        | none => .error NOT_FOUND) := by
  refine ⟨fun event res h => ?_, fun event hne h => ?_, fun h => ?_⟩
  · simp only [handle_message]
    rw [h]
  · simp only [handle_message]
    rw [h]
    exact if_neg hne
  · simp only [handle_message]
    rw [h]
    rfl

theorem handle_message_join_fallback_witness :
    handle_message fallbackRoutes Event.Message () () = .error POLICY_VIOLATION ∧
    handle_message fallbackRoutes Event.Leave () () = .error NOT_FOUND :=
  ⟨(handle_message_join_fallback fallbackRoutes () ()).1 Event.Message
      (.error POLICY_VIOLATION) rfl,
   (handle_message_join_fallback fallbackRoutes () ()).2.1 Event.Leave (by decide) rfl⟩


theorem continue_message_remaining (r : RunningMessage) :
    (continue_message r).1.remaining = r.remaining := rfl

theorem drainStep_keeps_running (s : DrainState) (r : RunningMessage)
    (hs : s.running = some r) (hr : 0 < r.remaining) :
    (drainStep s).running = some (continue_message r).1 := by
  unfold drainStep
  rw [hs]
  dsimp only
  simp only [read_next_part]
  have hpos : 0 < (continue_message r).1.remaining := by
    rw [continue_message_remaining]
    exact hr
  rw [if_pos hpos]
  cases s.transport with
  | nil => rfl
  | cons c rest => rfl

theorem drain_stuck (n : Nat) :
    (((drainStep^[n]) drainEx).running.map RunningMessage.remaining) = some 1 := by
  induction n with
  | zero => rfl
  | succ k ih =>
    rw [Function.iterate_succ_apply']
    rcases hs : ((drainStep^[k]) drainEx).running with _ | r
    · rw [hs] at ih
      cases ih
    · rw [hs] at ih
      have hrem : r.remaining = 1 := by
        simpa using ih
      rw [drainStep_keeps_running _ r hs (by omega)]
      simp [continue_message_remaining, hrem]

/-- C8: refuted by the code.  For a frame with declared payload length L = 1
(mask zero, payload byte 0x41 buffered), the created Running-Message records
remaining = 1; the first drain round forwards the whole 1-byte payload; yet
after any number of drain rounds the Running-Message still exists with
remaining = 1 — `remaining` is never decremented, so it never reaches zero
and the state is never cleared, while `read_next_part` clears exactly at
`remaining = 0`. -/
theorem running_message_never_cleared :
    (makeRunningMessage 1 [0, 0, 0, 0] [65]).1.remaining = 1 ∧
    (drainStep drainEx).forwarded.flatten = [65] ∧
    (∀ n, (((drainStep^[n]) drainEx).running.map RunningMessage.remaining) = some 1) ∧
    ∀ (r : RunningMessage) (buf : List Nat) (tr : List (List Nat)),
      (read_next_part (some r) buf tr).1
        = (if r.remaining = 0 then none else some r) := by
  refine ⟨rfl, by decide, drain_stuck, fun r buf tr => ?_⟩
  simp only [read_next_part]
  by_cases h : r.remaining = 0
  · rw [if_neg (by omega), if_pos h]
  · rw [if_pos (by omega), if_neg h]
    cases tr with
    | nil => rfl
    | cons c rest => rfl

/-- C9: the `UNSUBSCRIBE` arity error is the one malformed-control-message
response that does not begin with `ERR·` or `INVALID·` — the code replies
`Err·To many arguments` (lowercase), while the parallel `SUBSCRIBE` branch
replies `ERR·To many arguments`; the connection does stay open (the loop
step reports `continue` and only appends the diagnostic to the outbound
messages). -/
theorem control_error_response_typo :
    (handle_control exParse (Data.fromWs
        [sepBytes ++ asciiBytes "UNSUBSCRIBE" ++ sepBytes ++ asciiBytes "/a"
          ++ sepBytes ++ asciiBytes "x"] (some false))).1
      = .error "Err·To many arguments" ∧
    (("Err·To many arguments".toList.take 4 == "ERR·".toList) = false ∧
     ("Err·To many arguments".toList.take 8 == "INVALID·".toList) = false) ∧
    ((loopStep exHandlers true exState (.frame false
        [sepBytes ++ asciiBytes "UNSUBSCRIBE" ++ sepBytes ++ asciiBytes "/a"
          ++ sepBytes ++ asciiBytes "x"])).1.sent = ["Err·To many arguments"] ∧
     (loopStep exHandlers true exState (.frame false
        [sepBytes ++ asciiBytes "UNSUBSCRIBE" ++ sepBytes ++ asciiBytes "/a"
          ++ sepBytes ++ asciiBytes "x"])).2 = true) ∧
    (handle_control exParse (Data.fromWs
        [sepBytes ++ asciiBytes "SUBSCRIBE" ++ sepBytes ++ asciiBytes "/a"
          ++ sepBytes ++ asciiBytes "x"] (some false))).1
      = .error "ERR·To many arguments" := by
  refine ⟨rfl, ⟨by decide, by decide⟩, ⟨by decide, by decide⟩, rfl⟩


theorem findSepFrom_bound : ∀ (l : List Nat) (j i : Nat),
    findSepFrom l j = some i → j ≤ i ∧ i + 2 ≤ j + l.length := by
  intro l
  induction l with
  | nil =>
    intro j i h
    simp [findSepFrom] at h
  | cons b1 tl ih =>
    intro j i h
    cases tl with
    | nil => simp [findSepFrom] at h
    | cons b2 rest =>
      rw [findSepFrom] at h
      split at h
      · cases h
        refine ⟨Nat.le_refl _, ?_⟩
        simp only [List.length_cons]
        omega
      · obtain ⟨h1, h2⟩ := ih (j + 1) i h
        constructor
        · omega
        · simp only [List.length_cons] at h2 ⊢
          omega

/-- C1: the classifier peeks `MAX_TOPIC_LENGTH + |SEP|` bytes and scans for
the separator: absent → `TopicNotPresent`; at offset 0 → `ControlMessage`;
at an offset `i > 0` the first `i` bytes are parsed as a URI and, when a
subscription with that topic exists, classification succeeds with that topic
and exactly the bytes after the separator remain in the data (the payload
forwarded as that topic's Message event), otherwise `NotSubscribed`. -/
theorem multiplex_classification {τ : Type} [DecidableEq τ] (parse : List Char → Option τ)
    (subs : List τ) (d : Data) :
    (findSep (d.peek (MAX_TOPIC_LENGTH + MULTIPLEX_CONTROL_CHAR.length)).1 = none →
      multiplex_get_request parse subs d
        = (.error .TopicNotPresent,
           (d.peek (MAX_TOPIC_LENGTH + MULTIPLEX_CONTROL_CHAR.length)).2)) ∧
    (findSep (d.peek (MAX_TOPIC_LENGTH + MULTIPLEX_CONTROL_CHAR.length)).1 = some 0 →
      multiplex_get_request parse subs d
        = (.error .ControlMessage,
           (d.peek (MAX_TOPIC_LENGTH + MULTIPLEX_CONTROL_CHAR.length)).2)) ∧
    (∀ i, findSep (d.peek (MAX_TOPIC_LENGTH + MULTIPLEX_CONTROL_CHAR.length)).1 = some i →
      0 < i →
      ∀ s topic,
        utf8Decode ((((d.peek (MAX_TOPIC_LENGTH + MULTIPLEX_CONTROL_CHAR.length)).2.take
            (i + MULTIPLEX_CONTROL_CHAR.length)).1).take i) = some s →
        parse s = some topic →
        ((topic ∈ subs →
            (multiplex_get_request parse subs d).1 = .ok topic ∧
            (multiplex_get_request parse subs d).2.contents
              = d.contents.drop (i + MULTIPLEX_CONTROL_CHAR.length)) ∧
         (topic ∉ subs →
            (multiplex_get_request parse subs d).1 = .error .NotSubscribed))) := by
  refine ⟨fun h => ?_, fun h => ?_, fun i h hpos s topic hdec hparse => ?_⟩
  · simp [multiplex_get_request, h]
  · simp [multiplex_get_request, h]
  · have hne : ¬ (i = 0) := by omega
    have h2 : findSepFrom (d.peek (MAX_TOPIC_LENGTH + MULTIPLEX_CONTROL_CHAR.length)).1 0
        = some i := h
    have hb := findSepFrom_bound _ 0 i h2
    have hwl := Data.peek_length d (MAX_TOPIC_LENGTH + MULTIPLEX_CONTROL_CHAR.length)
    have hMC : MULTIPLEX_CONTROL_CHAR.length = 2 := rfl
    have hmin : min PEEK_BYTES (MAX_TOPIC_LENGTH + MULTIPLEX_CONTROL_CHAR.length) = 102 := rfl
    rw [hmin] at hwl
    have hPB : PEEK_BYTES = 512 := rfl
    have hlen1 : i + MULTIPLEX_CONTROL_CHAR.length
        ≤ (d.peek (MAX_TOPIC_LENGTH + MULTIPLEX_CONTROL_CHAR.length)).2.buffer.length := by
      omega
    have hlen2 : i + MULTIPLEX_CONTROL_CHAR.length ≤ PEEK_BYTES := by
      omega
    have ht := Data.take_exact
      (d.peek (MAX_TOPIC_LENGTH + MULTIPLEX_CONTROL_CHAR.length)).2
      (i + MULTIPLEX_CONTROL_CHAR.length) hlen2 hlen1
    have hc2 : d.contents
        = (d.peek (MAX_TOPIC_LENGTH + MULTIPLEX_CONTROL_CHAR.length)).2.buffer
          ++ (d.peek (MAX_TOPIC_LENGTH + MULTIPLEX_CONTROL_CHAR.length)).2.stream.flatten := by
      rw [← Data.peek_contents d (MAX_TOPIC_LENGTH + MULTIPLEX_CONTROL_CHAR.length)]
      rfl
    constructor
    · intro hmem
      have hfind := find_self_of_mem subs topic hmem
      constructor
      · simp only [multiplex_get_request, h]
        rw [if_neg hne]
        simp only [hdec, hparse, hfind]
      · have hsnd : (multiplex_get_request parse subs d).2
            = (((d.peek (MAX_TOPIC_LENGTH + MULTIPLEX_CONTROL_CHAR.length)).2.take
                (i + MULTIPLEX_CONTROL_CHAR.length))).2 := by
          simp only [multiplex_get_request, h]
          rw [if_neg hne]
          simp only [hdec, hparse, hfind]
        rw [hsnd, ht, hc2, List.drop_append_of_le_length hlen1]
        rfl
    · intro hmem
      have hfind : subs.find? (fun r => r = topic) = none :=
        Option.isNone_iff_eq_none.mp ((find_self_eq_none subs topic).mpr hmem)
      simp only [multiplex_get_request, h]
      rw [if_neg hne]
      simp only [hdec, hparse, hfind]


theorem multiplex_classification_witness :
    (multiplex_get_request exParse [0]
        (Data.fromWs [asciiBytes "/a" ++ sepBytes ++ asciiBytes "hi"] (some false))).1
      = .ok 0 ∧
    (multiplex_get_request exParse [0]
        (Data.fromWs [asciiBytes "/a" ++ sepBytes ++ asciiBytes "hi"] (some false))).2.contents
      = (Data.fromWs [asciiBytes "/a" ++ sepBytes ++ asciiBytes "hi"]
          (some false)).contents.drop (2 + MULTIPLEX_CONTROL_CHAR.length) :=
  ((multiplex_classification exParse [0]
      (Data.fromWs [asciiBytes "/a" ++ sepBytes ++ asciiBytes "hi"] (some false))).2.2
    2 (by decide) (by decide) "/a".toList 0 (by decide) (by decide)).1 (by decide)

end RocketWs
